import Mathlib

/-!
Verification of the vehicle-dynamics core of StreetRacer.

The canonical source is src/lib/player.py.  All float arithmetic is
modelled exactly over the rationals; the module constants are the exact
values of the source's literals (math.pi is the exact rational value of
the IEEE-754 double that Python's math.pi denotes).  The sprite/rendering
attributes (posX, posY, angle, rect, image) form a sink of the data flow:
velocity, engine RPM, gear and the shift timer never read them, so the
embedded state carries only the dynamics fields; the steering branch's
local-variable behaviour (the actualR defect) is modelled separately by
steeringActualR, with the transcendental library functions abstracted as
parameters.
-/

namespace StreetRacer

/-- air density in kg/m^3 (module constant AIR_DENSITY = 1.225). -/
def AIR_DENSITY : ℚ := 1.225

/-- module constant EARTH_ACCELERATION = 9.81. -/
def EARTH_ACCELERATION : ℚ := 9.81

/-- module constant SECONDS_IN_MINUTE = 60. -/
def SECONDS_IN_MINUTE : ℚ := 60

/-- math.pi from the Python math library: the exact rational value of the
binary64 floating-point number closest to pi. -/
def MATH_PI : ℚ := 884279719003555 / 281474976710656

/-- clamp from src/lib/player.py: returns the value bound by the range
[mini, maxi] inclusive. -/
def clamp (val mini maxi : ℚ) : ℚ :=
  if val < mini then mini
  else if val > maxi then maxi
  else val

/-- Python's int() applied to a number: truncation toward zero. -/
def pyInt (q : ℚ) : ℤ :=
  if q < 0 then ⌈q⌉ else ⌊q⌋

/-- Python list subscription with an integer index: nonnegative indices
address from the front, negative indices wrap from the back.  An index out
of range raises IndexError in Python; here it is modelled by the default 0
(no verified execution path reads out of range). -/
def pyIndex (l : List ℚ) (i : ℤ) : ℚ :=
  if 0 ≤ i then l.getD i.toNat 0
  else l.getD (l.length - (-i).toNat) 0

/-- range(start, stop) of Python, with the integers cast to the rationals
(scipy evaluates the interpolant at these points as floats). -/
def pyRangeQ (start stop : ℕ) : List ℚ :=
  List.map (fun i : ℕ => (i : ℚ)) (List.range' start (stop - start))

/-- interpolate_spline from src/lib/player.py.  The cubic fit performed by
scipy.interpolate.interp1d(x, y, cubic, extrapolate) is external library
code, abstracted as the parameter fit: the source builds the fitted
function from the sample coordinates and applies it pointwise to newx. -/
def interpolate_spline (fit : List ℚ → List ℚ → ℚ → ℚ)
    (x y newx : List ℚ) : List ℚ :=
  List.map (fit x y) newx

/-- The configuration dictionary fields read by the dynamics core
(loaded from a vehicle JSON file; max_rpm is an integer since the source
uses it as a range bound and as the top curve index). -/
structure Config where
  full_name : String
  mass : ℚ
  min_rpm : ℚ
  max_rpm : ℕ
  torque_samples : List ℚ
  power_samples : List ℚ
  sampling_start : ℚ
  sampling_precision : ℚ
  front_area : ℚ
  drag_coefficient : ℚ
  wheelbase : ℚ
  wheel_radius : ℚ
  static_friction : ℚ
  max_turning_angle : ℚ
  transmission : List ℚ
  transmission_base : ℚ
  transmission_shift_time : ℚ

/-- The dynamics-relevant attributes of the Player sprite from
src/lib/player.py (the rendering attributes are a data-flow sink and are
omitted; see the module docstring). -/
structure Player where
  acceleration : ℚ
  steering : ℚ
  velocity : ℚ
  min_RPM : ℚ
  max_RPM : ℚ
  engine_RPM : ℚ
  mass : ℚ
  gear : ℤ
  transmission : List ℚ
  transmission_base : ℚ
  shift_time : ℚ
  power_interpolation : List ℚ
  torque_interpolation : List ℚ

namespace Player

/-- Player._interpolate_power_and_torque: validates the sample counts and
builds the dense torque and power tables (torque first). -/
def interpolatePowerAndTorque (fit : List ℚ → List ℚ → ℚ → ℚ)
    (configuration : Config) : Except String (List ℚ × List ℚ) :=
  if configuration.torque_samples.length ≠ configuration.power_samples.length then
    Except.error
      (configuration.full_name ++ " has incosistent amount of torque and power samples")
  else
    let start : ℕ := 0
    let stop : ℕ := configuration.max_rpm + 1
    let samples_x := List.map
      (fun i : ℕ => configuration.sampling_precision * (i : ℚ) + configuration.sampling_start)
      (List.range configuration.torque_samples.length)
    Except.ok
      (interpolate_spline fit samples_x configuration.torque_samples (pyRangeQ start stop),
       interpolate_spline fit samples_x configuration.power_samples (pyRangeQ start stop))

/-- The dynamics fields set by Player.__init__, given the two dense curve
tables: zero intents and velocity, engine_RPM = 5000 (hard-coded constant),
gear = 1, transmission = [100] + configuration transmission (index 0 is the
placeholder), shift_time = 0. -/
def initState (configuration : Config) (tq pw : List ℚ) : Player :=
  { acceleration := 0
    steering := 0
    velocity := 0
    min_RPM := configuration.min_rpm
    max_RPM := (configuration.max_rpm : ℚ)
    engine_RPM := 5000
    mass := configuration.mass
    gear := 1
    transmission := 100 :: configuration.transmission
    transmission_base := configuration.transmission_base
    shift_time := 0
    power_interpolation := pw
    torque_interpolation := tq }

/-- Player.__init__ restricted to the dynamics core: builds the curve
tables (which can fail on a sample-count mismatch) and the initial state. -/
def init (fit : List ℚ → List ℚ → ℚ → ℚ) (configuration : Config) :
    Except String Player :=
  match interpolatePowerAndTorque fit configuration with
  | Except.error e => Except.error e
  | Except.ok c => Except.ok (initState configuration c.1 c.2)

/-- Player.get_power: the dense power table at index int(engine_RPM). -/
def get_power (p : Player) : ℚ :=
  pyIndex p.power_interpolation (pyInt p.engine_RPM)

/-- Player.get_torque: the dense torque table at index int(engine_RPM),
scaled by the current gear ratio and the final-drive ratio. -/
def get_torque (p : Player) : ℚ :=
  pyIndex p.torque_interpolation (pyInt p.engine_RPM)
    * pyIndex p.transmission p.gear
    * p.transmission_base

/-- Player.is_shifting: True when the shift timer is positive. -/
def is_shifting (p : Player) : Bool :=
  p.shift_time > 0

/-- Player._update_rpm: recomputes engine_RPM from the velocity and the
current gearing, clamped into [min_RPM, max_RPM]. -/
def update_rpm (p : Player) (configuration : Config) : Player :=
  let revolutions := p.velocity / (2 * configuration.wheel_radius * MATH_PI)
  let engine_revolutions :=
    revolutions * pyIndex p.transmission p.gear * p.transmission_base * SECONDS_IN_MINUTE
  { p with engine_RPM := clamp engine_revolutions p.min_RPM p.max_RPM }

/-- Player.shift_gears: decrements the shift timer while shifting;
otherwise upshifts at engine_RPM >= max_RPM below the top gear, else
downshifts when engine_RPM < 0.9 * max_RPM * ratio[gear] / ratio[gear-1]
(the source has no gear > 1 guard on this branch). -/
def shift_gears (p : Player) (configuration : Config) (deltaTime : ℚ) : Player :=
  if p.is_shifting then
    { p with shift_time := p.shift_time - deltaTime }
  else if p.engine_RPM ≥ p.max_RPM ∧ p.gear < (configuration.transmission.length : ℤ) then
    { p with gear := p.gear + 1, shift_time := configuration.transmission_shift_time }
  else if p.engine_RPM
      < 0.9 * p.max_RPM * pyIndex p.transmission p.gear / pyIndex p.transmission (p.gear - 1) then
    { p with gear := p.gear - 1, shift_time := configuration.transmission_shift_time }
  else
    p

/-- The drive force of Player.update before intent scaling: engine torque
through the drivetrain over the wheel radius under forward throttle or
backward roll, else the static rolling/brake force. -/
def driveForce (p : Player) (configuration : Config) : ℚ :=
  if p.acceleration > 0 ∨ p.velocity < 0 then
    p.get_torque / configuration.wheel_radius
  else
    configuration.static_friction * p.mass * EARTH_ACCELERATION

/-- The traction force of Player.update: the drive force scaled by the
acceleration intent, overridden to 0 while shifting under forward
throttle. -/
def tractionForce (p : Player) (configuration : Config) : ℚ :=
  let F := p.driveForce configuration * p.acceleration
  if p.is_shifting ∧ p.acceleration > 0 then 0 else F

/-- The net force of Player.update: traction minus aerodynamic drag
(drag is subtracted unconditionally, regardless of the velocity sign). -/
def netForce (p : Player) (configuration : Config) : ℚ :=
  let SCd := configuration.front_area * configuration.drag_coefficient
  let Fd := 0.5 * AIR_DENSITY * p.velocity ^ 2 * SCd
  p.tractionForce configuration - Fd

/-- Player.update restricted to the dynamics fields: integrate the
velocity from the net force, recompute the engine RPM, then evaluate the
gear state machine. -/
def update (p : Player) (configuration : Config) (deltaTime : ℚ) : Player :=
  let a := p.netForce configuration / p.mass
  let p1 := { p with velocity := p.velocity + a * deltaTime }
  let p2 := p1.update_rpm configuration
  p2.shift_gears configuration deltaTime

/-- A sequence of simulation ticks: each input is (acceleration intent,
steering intent, deltaTime); the game loop sets the intents (accelerate,
rotate) and then calls update. -/
def run (configuration : Config) (inputs : List (ℚ × ℚ × ℚ)) (p : Player) : Player :=
  inputs.foldl
    (fun q i => ({ q with acceleration := i.1, steering := i.2.1 }).update configuration i.2.2)
    p

end Player

/-- Modelled from the spec wording of claim C1, for comparison with
Player.driveForce: the drive force with the torque curve looked up at
round(engine_rpm), the nearest-integer RPM (the source uses int(), which
truncates toward zero). -/
def Player.driveForceSpec (p : Player) (c : Config) : ℚ :=
  if p.acceleration > 0 ∨ p.velocity < 0 then
    pyIndex p.torque_interpolation (round p.engine_RPM) * pyIndex p.transmission p.gear
      * p.transmission_base / c.wheel_radius
  else
    c.static_friction * p.mass * EARTH_ACCELERATION

/-- Validity of the engine-curve lookup index int(rpm) used by get_power
and get_torque: nonnegative and within the dense array. -/
def curveIndexValid (curve : List ℚ) (rpm : ℚ) : Prop :=
  0 ≤ pyInt rpm ∧ (pyInt rpm).toNat < curve.length

/-- The actualR local variable of the steering branch of Player.update
(entered only when steering is nonzero), modelled as a Python local:
none is the unassigned state, whose read raises UnboundLocalError.
The transcendental library calls degrees(asin(x)) and sin(radians(x)) are
abstracted as the parameters asinDeg and sinDeg. -/
def steeringActualR (asinDeg sinDeg : ℚ → ℚ) (p : Player) (configuration : Config) :
    Option ℚ :=
  let max_friction := configuration.static_friction * p.mass * EARTH_ACCELERATION
  let R := p.mass * p.velocity ^ 2 / max_friction
  let turning_angle : ℚ := 90
  let actualR : Option ℚ := none
  let state :=
    if R > configuration.wheelbase then (asinDeg (configuration.wheelbase / R), some R)
    else (turning_angle, actualR)
  if state.1 > configuration.max_turning_angle then
    some (sinDeg configuration.max_turning_angle * configuration.wheelbase)
  else
    state.2

/-- A concrete test vehicle configuration (mass 1 kg, unit wheel radius,
unit drag product, ratios [3.5, 2.5] behind the placeholder 100). -/
def cfgT : Config :=
  { full_name := "Test Vehicle"
    mass := 1
    min_rpm := 0
    max_rpm := 5000
    torque_samples := [100, 200, 100]
    power_samples := [50, 100, 50]
    sampling_start := 1000
    sampling_precision := 1000
    front_area := 1
    drag_coefficient := 1
    wheelbase := 3
    wheel_radius := 1
    static_friction := 1
    max_turning_angle := 30
    transmission := [7/2, 5/2]
    transmission_base := 1
    transmission_shift_time := 1/2 }

/-- cfgT with an RPM band [800, 4000] that excludes the hard-coded initial
engine RPM of 5000. -/
def cfgC6 : Config := { cfgT with min_rpm := 800, max_rpm := 4000 }

/-- A freshly constructed vehicle on cfgT rolling backward at 10 m/s, with
a small valid torque table indexed at RPM 3. -/
def pC3 : Player :=
  { Player.initState cfgT [10, 10, 10, 10] [] with velocity := -10, engine_RPM := 3 }

/-- A freshly constructed vehicle on cfgT coasting forward at 1 m/s, with
a small valid torque table indexed at RPM 3. -/
def pC3w : Player :=
  { Player.initState cfgT [10, 10, 10, 10] [] with velocity := 1, engine_RPM := 3 }

/-- A freshly constructed vehicle on cfgT in the middle of a gear shift
with 0.1 s remaining on the shift timer. -/
def pC4 : Player := { Player.initState cfgT [] [] with shift_time := 1/10 }

/-- A freshly constructed vehicle on cfgC6. -/
def pC6 : Player := Player.initState cfgC6 [] []

/-- A vehicle on cfgT under full forward throttle whose engine RPM is 1.6,
with a 3-entry torque table: both the truncated index 1 and the rounded
index 2 are valid. -/
def pC1 : Player :=
  { Player.initState cfgT [5, 10, 20] [] with engine_RPM := 8/5, acceleration := 1 }

/-- A freshly constructed vehicle on cfgT (gear 1, zero intents). -/
def pC2 : Player := Player.initState cfgT [] []

/-- cfgT with min_rpm raised to 1000, above the gear-1 downshift threshold
0.9 * 5000 * 3.5 / 100 = 157.5. -/
def cfgC2w : Config := { cfgT with min_rpm := 1000 }

/-- A freshly constructed vehicle on cfgT: Engaged, gear 1 below the top
index, and engine RPM 5000 = max_rpm (the upshift condition holds). -/
def pC5 : Player := Player.initState cfgT [] []

/-- cfgT with a steering-geometry limit of 90 degrees. -/
def cfgC7 : Config := { cfgT with max_turning_angle := 90 }

/-- A slow vehicle on cfgC7 with full left steering intent. -/
def pC7 : Player := { Player.initState cfgC7 [] [] with steering := 1 }

/-- cfgT with mismatched sample counts: 3 torque samples, 2 power samples. -/
def cfgC8 : Config := { cfgT with power_samples := [50, 100] }

/-- cfgT with a small curve domain (max_rpm = 5). -/
def cfgC10 : Config := { cfgT with max_rpm := 5 }

/-- A concrete stand-in for the scipy cubic fit: the constant-zero
interpolant. -/
def fit0 : List ℚ → List ℚ → ℚ → ℚ := fun _ _ _ => 0

/-- The dense torque table the curve builder produces on cfgC10 under
fit0. -/
def tqC10 : List ℚ :=
  interpolate_spline fit0
    (List.map (fun i : ℕ => cfgC10.sampling_precision * (i : ℚ) + cfgC10.sampling_start)
      (List.range cfgC10.torque_samples.length))
    cfgC10.torque_samples (pyRangeQ 0 (cfgC10.max_rpm + 1))

/-- The dense power table the curve builder produces on cfgC10 under
fit0. -/
def pwC10 : List ℚ :=
  interpolate_spline fit0
    (List.map (fun i : ℕ => cfgC10.sampling_precision * (i : ℚ) + cfgC10.sampling_start)
      (List.range cfgC10.torque_samples.length))
    cfgC10.power_samples (pyRangeQ 0 (cfgC10.max_rpm + 1))

/-! Helper lemmas about the embedded operations. -/

lemma clamp_mem (val mini maxi : ℚ) (h : mini ≤ maxi) :
    mini ≤ clamp val mini maxi ∧ clamp val mini maxi ≤ maxi := by
  unfold clamp
  by_cases h1 : val < mini
  · simp only [if_pos h1]
    exact ⟨le_refl _, h⟩
  · simp only [if_neg h1]
    by_cases h2 : val > maxi
    · simp only [if_pos h2]
      exact ⟨h, le_refl _⟩
    · simp only [if_neg h2]
      exact ⟨le_of_not_lt h1, le_of_not_lt h2⟩

lemma pyRangeQ_length (start stop : ℕ) : (pyRangeQ start stop).length = stop - start := by
  simp [pyRangeQ]

lemma interpolate_spline_length (fit : List ℚ → List ℚ → ℚ → ℚ) (x y newx : List ℚ) :
    (interpolate_spline fit x y newx).length = newx.length :=
  List.length_map _ _

namespace Player

lemma shift_gears_fields (p : Player) (c : Config) (dt : ℚ) :
    (p.shift_gears c dt).velocity = p.velocity ∧
    (p.shift_gears c dt).engine_RPM = p.engine_RPM ∧
    (p.shift_gears c dt).transmission = p.transmission ∧
    (p.shift_gears c dt).min_RPM = p.min_RPM ∧
    (p.shift_gears c dt).max_RPM = p.max_RPM ∧
    (p.shift_gears c dt).mass = p.mass ∧
    (p.shift_gears c dt).acceleration = p.acceleration := by
  unfold shift_gears
  split
  · exact ⟨rfl, rfl, rfl, rfl, rfl, rfl, rfl⟩
  · split
    · exact ⟨rfl, rfl, rfl, rfl, rfl, rfl, rfl⟩
    · split
      · exact ⟨rfl, rfl, rfl, rfl, rfl, rfl, rfl⟩
      · exact ⟨rfl, rfl, rfl, rfl, rfl, rfl, rfl⟩

lemma shift_gears_gear_cases (p : Player) (c : Config) (dt : ℚ) :
    (p.shift_gears c dt).gear = p.gear ∨
    ((p.shift_gears c dt).gear = p.gear + 1 ∧ p.gear < (c.transmission.length : ℤ)) ∨
    ((p.shift_gears c dt).gear = p.gear - 1 ∧ ¬ p.is_shifting = true ∧
      p.engine_RPM
        < 0.9 * p.max_RPM * pyIndex p.transmission p.gear / pyIndex p.transmission (p.gear - 1)) := by
  unfold shift_gears
  split
  · exact Or.inl rfl
  · split
    · next h2 => exact Or.inr (Or.inl ⟨rfl, h2.2⟩)
    · split
      · next h1 _ h3 => exact Or.inr (Or.inr ⟨rfl, h1, h3⟩)
      · exact Or.inl rfl

lemma is_shifting_iff (p : Player) : p.is_shifting = true ↔ p.shift_time > 0 := by
  unfold is_shifting
  exact ⟨of_decide_eq_true, decide_eq_true⟩

lemma shift_gears_of_shifting (p : Player) (c : Config) (dt : ℚ)
    (h : p.shift_time > 0) :
    (p.shift_gears c dt).shift_time = p.shift_time - dt ∧
    (p.shift_gears c dt).gear = p.gear := by
  unfold shift_gears
  rw [if_pos ((is_shifting_iff p).mpr h)]
  exact ⟨rfl, rfl⟩

lemma update_rpm_fields (p : Player) (c : Config) :
    (p.update_rpm c).gear = p.gear ∧ (p.update_rpm c).shift_time = p.shift_time ∧
    (p.update_rpm c).velocity = p.velocity ∧ (p.update_rpm c).transmission = p.transmission ∧
    (p.update_rpm c).min_RPM = p.min_RPM ∧ (p.update_rpm c).max_RPM = p.max_RPM ∧
    (p.update_rpm c).mass = p.mass ∧ (p.update_rpm c).acceleration = p.acceleration :=
  ⟨rfl, rfl, rfl, rfl, rfl, rfl, rfl, rfl⟩

lemma update_rpm_engine (p : Player) (c : Config) :
    (p.update_rpm c).engine_RPM =
      clamp (p.velocity / (2 * c.wheel_radius * MATH_PI) * pyIndex p.transmission p.gear
        * p.transmission_base * SECONDS_IN_MINUTE) p.min_RPM p.max_RPM := rfl

lemma update_eq (p : Player) (c : Config) (dt : ℚ) :
    p.update c dt =
      (({ p with velocity := p.velocity + p.netForce c / p.mass * dt }).update_rpm c).shift_gears
        c dt := rfl

lemma update_velocity (p : Player) (c : Config) (dt : ℚ) :
    (p.update c dt).velocity = p.velocity + p.netForce c / p.mass * dt := by
  rw [update_eq]
  rw [(shift_gears_fields _ c dt).1]
  exact (update_rpm_fields _ c).2.2.1

lemma update_engine_RPM (p : Player) (c : Config) (dt : ℚ) :
    (p.update c dt).engine_RPM =
      clamp ((p.velocity + p.netForce c / p.mass * dt) / (2 * c.wheel_radius * MATH_PI)
        * pyIndex p.transmission p.gear * p.transmission_base * SECONDS_IN_MINUTE)
        p.min_RPM p.max_RPM := by
  rw [update_eq]
  set q := ({ p with velocity := p.velocity + p.netForce c / p.mass * dt }).update_rpm c with hq
  rw [(shift_gears_fields q c dt).2.1, hq, update_rpm_engine]

lemma update_shift_time_of_shifting (p : Player) (c : Config) (dt : ℚ)
    (h : p.shift_time > 0) :
    (p.update c dt).shift_time = p.shift_time - dt := by
  rw [update_eq]
  exact (shift_gears_of_shifting
    (({ p with velocity := p.velocity + p.netForce c / p.mass * dt }).update_rpm c) c dt h).1

lemma interp_ok (fit : List ℚ → List ℚ → ℚ → ℚ) (c : Config)
    (h : c.torque_samples.length = c.power_samples.length) :
    interpolatePowerAndTorque fit c = Except.ok
      (interpolate_spline fit
        (List.map (fun i : ℕ => c.sampling_precision * (i : ℚ) + c.sampling_start)
          (List.range c.torque_samples.length))
        c.torque_samples (pyRangeQ 0 (c.max_rpm + 1)),
       interpolate_spline fit
        (List.map (fun i : ℕ => c.sampling_precision * (i : ℚ) + c.sampling_start)
          (List.range c.torque_samples.length))
        c.power_samples (pyRangeQ 0 (c.max_rpm + 1))) := by
  unfold interpolatePowerAndTorque
  rw [if_neg (fun hne => hne h)]

lemma interp_ok_lengths (fit : List ℚ → List ℚ → ℚ → ℚ) (c : Config) (tq pw : List ℚ)
    (h : interpolatePowerAndTorque fit c = Except.ok (tq, pw)) :
    tq.length = c.max_rpm + 1 ∧ pw.length = c.max_rpm + 1 := by
  by_cases hlen : c.torque_samples.length = c.power_samples.length
  · rw [interp_ok fit c hlen] at h
    injection h with h2
    have htq : tq = interpolate_spline fit
        (List.map (fun i : ℕ => c.sampling_precision * (i : ℚ) + c.sampling_start)
          (List.range c.torque_samples.length))
        c.torque_samples (pyRangeQ 0 (c.max_rpm + 1)) := (congrArg Prod.fst h2).symm
    have hpw : pw = interpolate_spline fit
        (List.map (fun i : ℕ => c.sampling_precision * (i : ℚ) + c.sampling_start)
          (List.range c.torque_samples.length))
        c.power_samples (pyRangeQ 0 (c.max_rpm + 1)) := (congrArg Prod.snd h2).symm
    rw [htq, hpw, interpolate_spline_length, interpolate_spline_length, pyRangeQ_length]
    omega
  · exfalso
    unfold interpolatePowerAndTorque at h
    rw [if_pos hlen] at h
    exact Except.noConfusion h

lemma update_preserves (p : Player) (c : Config) (dt : ℚ) :
    (p.update c dt).transmission = p.transmission ∧
    (p.update c dt).min_RPM = p.min_RPM ∧ (p.update c dt).max_RPM = p.max_RPM := by
  rw [update_eq]
  set q := ({ p with velocity := p.velocity + p.netForce c / p.mass * dt }).update_rpm c
  refine ⟨?_, ?_, ?_⟩
  · rw [(shift_gears_fields q c dt).2.2.1]
    rfl
  · rw [(shift_gears_fields q c dt).2.2.2.1]
    rfl
  · rw [(shift_gears_fields q c dt).2.2.2.2.1]
    rfl

lemma gear_step (p : Player) (c : Config) (dt : ℚ)
    (ht : p.transmission = 100 :: c.transmission)
    (hmin : p.min_RPM = c.min_rpm) (hmax : p.max_RPM = (c.max_rpm : ℚ))
    (hg1 : 1 ≤ p.gear) (hg2 : p.gear ≤ (c.transmission.length : ℤ))
    (hminmax : c.min_rpm ≤ (c.max_rpm : ℚ))
    (hthresh : 0.9 * (c.max_rpm : ℚ) * pyIndex (100 :: c.transmission) 1 / 100 ≤ c.min_rpm) :
    1 ≤ (p.update c dt).gear ∧ (p.update c dt).gear ≤ (c.transmission.length : ℤ) := by
  rw [update_eq]
  set q := ({ p with velocity := p.velocity + p.netForce c / p.mass * dt }).update_rpm c
    with hqdef
  have hqg : q.gear = p.gear := rfl
  have hqt : q.transmission = p.transmission := rfl
  have hqmax : q.max_RPM = p.max_RPM := rfl
  have hmm : p.min_RPM ≤ p.max_RPM := by
    rw [hmin, hmax]
    exact hminmax
  have hrpm1 : p.min_RPM ≤ q.engine_RPM := by
    rw [hqdef, update_rpm_engine]
    exact (clamp_mem _ _ _ hmm).1
  rcases shift_gears_gear_cases q c dt with hcase | ⟨hcase, hlt⟩ | ⟨hcase, hns, hcond⟩
  · rw [hcase, hqg]
    exact ⟨hg1, hg2⟩
  · rw [hcase, hqg]
    rw [hqg] at hlt
    omega
  · rw [hcase, hqg]
    rcases eq_or_lt_of_le hg1 with hone | htwo
    · exfalso
      rw [hqg, ← hone] at hcond
      rw [hqt, ht, hqmax, hmax] at hcond
      rw [show (1:ℤ) - 1 = 0 by decide] at hcond
      have h100 : pyIndex (100 :: c.transmission) 0 = 100 := by
        simp [pyIndex]
      rw [h100] at hcond
      rw [hmin] at hrpm1
      linarith
    · omega

end Player

namespace Player

lemma tractionForce_of_acc_zero (p : Player) (c : Config) (h : p.acceleration = 0) :
    p.tractionForce c = 0 := by
  unfold tractionForce
  split
  · rfl
  · rw [h, mul_zero]

lemma netForce_of_acc_zero (p : Player) (c : Config) (h : p.acceleration = 0) :
    p.netForce c =
      -(0.5 * AIR_DENSITY * p.velocity ^ 2 * (c.front_area * c.drag_coefficient)) := by
  unfold netForce
  rw [tractionForce_of_acc_zero p c h]
  ring

end Player

open Player

/-! Claim C1. -/

/-- C1 counterexample: a throttled state with engine RPM 1.6 and torque
table [5, 10, 20] (both index 1 and index 2 valid): the code's drive force
uses the truncated index 1 and yields 35, while the spec's rounded lookup
at index 2 yields 70 — the drive force is not the round(engine_rpm)
lookup. -/
theorem C1_counterexample :
    pC1.acceleration > 0 ∧
    pyInt pC1.engine_RPM = 1 ∧ round pC1.engine_RPM = 2 ∧
    pC1.torque_interpolation.length = 3 ∧
    pC1.driveForce cfgT = 35 ∧ Player.driveForceSpec pC1 cfgT = 70 ∧
    pC1.driveForce cfgT ≠ Player.driveForceSpec pC1 cfgT := by
  norm_num [pC1, cfgT, Player.initState, Player.driveForce, Player.driveForceSpec,
    Player.get_torque, pyIndex, pyInt, List.getD, Option.getD, Int.toNat_ofNat, round_eq,
    show (2:ℤ).toNat = 2 from rfl]

/-- C1 amended: whenever acceleration intent > 0 or velocity < 0, the drive
force is the dense torque curve entry at int(engine_rpm) — truncation
toward zero, not the nearest integer — times gear_ratio[gear] times
transmission_base over wheel_radius, for every state whose engine_rpm makes
that lookup index valid. -/
theorem C1_amended (p : Player) (c : Config)
    (hacc : p.acceleration > 0 ∨ p.velocity < 0)
    (h0 : 0 ≤ pyInt p.engine_RPM)
    (hlt : (pyInt p.engine_RPM).toNat < p.torque_interpolation.length) :
    p.driveForce c =
      p.torque_interpolation.get ⟨(pyInt p.engine_RPM).toNat, hlt⟩
        * pyIndex p.transmission p.gear * p.transmission_base / c.wheel_radius := by
  unfold Player.driveForce Player.get_torque
  rw [if_pos hacc]
  unfold pyIndex
  rw [if_pos h0, List.getD_eq_get p.torque_interpolation 0 hlt]

/-- C1 witness: the amended statement evaluated on the concrete throttled
state pC1 over cfgT. -/
theorem C1_witness :
    pC1.driveForce cfgT =
      pC1.torque_interpolation.get ⟨(pyInt pC1.engine_RPM).toNat,
          by norm_num [pC1, Player.initState, pyInt]⟩
        * pyIndex pC1.transmission pC1.gear * pC1.transmission_base / cfgT.wheel_radius :=
  C1_amended pC1 cfgT (Or.inl (by norm_num [pC1, Player.initState]))
    (by norm_num [pC1, Player.initState, pyInt])
    (by norm_num [pC1, Player.initState, pyInt])

/-! Claim C2. -/

/-- C2 counterexample: from the freshly constructed state (gear 1) on cfgT
(min_rpm 0), a single tick with deltaTime 0 recomputes the RPM to 0, which
is below the gear-1 downshift threshold 0.9 * 5000 * 3.5 / 100 = 157.5, and
the downshift fires at gear 1 — the gear leaves [1, top] and becomes 0. -/
theorem C2_counterexample :
    pC2.gear = 1 ∧ (pC2.update cfgT 0).gear = 0 := by
  constructor
  · rfl
  · norm_num [pC2, cfgT, Player.initState, Player.update, Player.update_rpm,
      Player.shift_gears, Player.is_shifting, Player.netForce, Player.tractionForce,
      Player.driveForce, Player.get_torque, clamp, pyIndex, pyInt, AIR_DENSITY,
      EARTH_ACCELERATION, SECONDS_IN_MINUTE, MATH_PI, List.getD, Option.getD,
      Int.toNat_ofNat]

/-- C2 amended: the source's downshift branch has no gear > 1 guard, so a
downshift can fire at gear 1 (taking the gear to 0) when the clamped RPM is
below 0.9 * max_rpm * ratio[1] / ratio[0] with ratio[0] = 100 the
placeholder.  Provided the configuration keeps that threshold at or below
min_rpm (and min_rpm <= max_rpm, nonempty ratio list), the gear starting
from 1 stays within [1, top ratio index] over every sequence of ticks, for
any intents and any deltaTime, and an upshift never passes the top index. -/
theorem C2_amended (c : Config) (tq pw : List ℚ) (inputs : List (ℚ × ℚ × ℚ))
    (hne : 1 ≤ c.transmission.length)
    (hminmax : c.min_rpm ≤ (c.max_rpm : ℚ))
    (hthresh : 0.9 * (c.max_rpm : ℚ) * pyIndex (100 :: c.transmission) 1 / 100 ≤ c.min_rpm) :
    1 ≤ (Player.run c inputs (Player.initState c tq pw)).gear ∧
    (Player.run c inputs (Player.initState c tq pw)).gear ≤ (c.transmission.length : ℤ) := by
  suffices h : ∀ (l : List (ℚ × ℚ × ℚ)) (p : Player),
      p.transmission = 100 :: c.transmission → p.min_RPM = c.min_rpm →
      p.max_RPM = (c.max_rpm : ℚ) → 1 ≤ p.gear → p.gear ≤ (c.transmission.length : ℤ) →
      1 ≤ (Player.run c l p).gear ∧ (Player.run c l p).gear ≤ (c.transmission.length : ℤ) by
    have hg : (Player.initState c tq pw).gear = 1 := rfl
    refine h inputs _ rfl rfl rfl (le_refl 1) ?_
    rw [hg]
    exact_mod_cast hne
  intro l
  induction l with
  | nil =>
      intro p _ _ _ h4 h5
      exact ⟨h4, h5⟩
  | cons i rest ih =>
      intro p h1 h2 h3 h4 h5
      have hrunstep : Player.run c (i :: rest) p =
          Player.run c rest
            (({ p with acceleration := i.1, steering := i.2.1 }).update c i.2.2) := rfl
      rw [hrunstep]
      have step := Player.gear_step { p with acceleration := i.1, steering := i.2.1 }
        c i.2.2 h1 h2 h3 h4 h5 hminmax hthresh
      have pres := Player.update_preserves { p with acceleration := i.1, steering := i.2.1 }
        c i.2.2
      exact ih _ (by rw [pres.1]; exact h1) (by rw [pres.2.1]; exact h2)
        (by rw [pres.2.2]; exact h3) step.1 step.2

/-- C2 witness: the amended invariant evaluated on cfgC2w (min_rpm 1000,
above the gear-1 downshift threshold 157.5) after one full-throttle tick of
deltaTime 1 from the freshly constructed state. -/
theorem C2_witness :
    1 ≤ (Player.run cfgC2w [(1, 0, 1)] (Player.initState cfgC2w [] [])).gear ∧
    (Player.run cfgC2w [(1, 0, 1)] (Player.initState cfgC2w [] [])).gear ≤
      (cfgC2w.transmission.length : ℤ) :=
  C2_amended cfgC2w [] [] [(1, 0, 1)] (by norm_num [cfgC2w, cfgT])
    (by norm_num [cfgC2w, cfgT])
    (by norm_num [cfgC2w, cfgT, pyIndex, List.getD, Option.getD, Int.toNat_ofNat])

/-! Claim C3. -/

/-- C3 counterexample: with acceleration intent 0, steering intent 0 and
nonzero (negative) initial velocity, one tick of deltaTime 1 strictly
increases the speed: drag is subtracted unconditionally, so a vehicle
rolling backward at 10 m/s is accelerated backward to 71.25 m/s. -/
theorem C3_counterexample :
    pC3.acceleration = 0 ∧ pC3.steering = 0 ∧ pC3.velocity = -10 ∧
    (pC3.update cfgT 1).velocity = -(285/4) ∧
    |(pC3.update cfgT 1).velocity| > |pC3.velocity| := by
  have hv : (pC3.update cfgT 1).velocity = -(285/4) := by
    rw [update_velocity]
    norm_num [pC3, cfgT, Player.initState, Player.netForce, Player.tractionForce,
      Player.driveForce, Player.get_torque, Player.is_shifting, pyIndex, pyInt,
      AIR_DENSITY, EARTH_ACCELERATION, List.getD, Option.getD, Int.toNat_ofNat]
  refine ⟨rfl, rfl, rfl, hv, ?_⟩
  rw [hv, show pC3.velocity = -10 from rfl]
  rw [abs_of_neg (by norm_num : (-(285/4):ℚ) < 0), abs_of_neg (by norm_num : (-10:ℚ) < 0)]
  norm_num

/-- C3 amended: with acceleration intent 0, the tick maps velocity v to
v - (0.5 * 1.225 * S * Cd / m) * v^2 * dt.  For positive velocity the tick
strictly decreases velocity, and does not overshoot past zero provided the
per-step drag bound 0.5 * 1.225 * S * Cd * v * dt / m <= 1 holds; for
negative velocity the drag term is still subtracted, so the velocity
strictly decreases further and the speed strictly grows. -/
theorem C3_amended (p : Player) (c : Config) (dt : ℚ)
    (hacc : p.acceleration = 0) (hm : 0 < p.mass)
    (hscd : 0 < c.front_area * c.drag_coefficient) (hdt : 0 < dt) :
    (0 < p.velocity → (p.update c dt).velocity < p.velocity ∧
      (0.5 * AIR_DENSITY * (c.front_area * c.drag_coefficient) * p.velocity * dt / p.mass ≤ 1 →
        0 ≤ (p.update c dt).velocity)) ∧
    (p.velocity < 0 → (p.update c dt).velocity < p.velocity ∧
      |(p.update c dt).velocity| > |p.velocity|) := by
  have hρ : (0:ℚ) < AIR_DENSITY := by norm_num [AIR_DENSITY]
  have hv : (p.update c dt).velocity =
      p.velocity -
        0.5 * AIR_DENSITY * p.velocity ^ 2 * (c.front_area * c.drag_coefficient) / p.mass * dt := by
    rw [update_velocity, netForce_of_acc_zero p c hacc]
    ring
  constructor
  · intro hv0
    have hsq : 0 < p.velocity ^ 2 := by nlinarith
    have hdrag : 0 < 0.5 * AIR_DENSITY * p.velocity ^ 2 *
        (c.front_area * c.drag_coefficient) / p.mass * dt :=
      mul_pos (div_pos (mul_pos (mul_pos (mul_pos (by norm_num) hρ) hsq) hscd) hm) hdt
    constructor
    · rw [hv]
      linarith
    · intro hstep
      have h1 : 0.5 * AIR_DENSITY * p.velocity ^ 2 * (c.front_area * c.drag_coefficient)
          / p.mass * dt =
          (0.5 * AIR_DENSITY * (c.front_area * c.drag_coefficient) * p.velocity * dt / p.mass)
            * p.velocity := by
        field_simp
        ring
      rw [hv, h1]
      have h2 : 0 ≤ (1 - 0.5 * AIR_DENSITY * (c.front_area * c.drag_coefficient)
          * p.velocity * dt / p.mass) * p.velocity :=
        mul_nonneg (by linarith) hv0.le
      nlinarith [h2]
  · intro hv0
    have hsq : 0 < p.velocity ^ 2 := by nlinarith
    have hdrag : 0 < 0.5 * AIR_DENSITY * p.velocity ^ 2 *
        (c.front_area * c.drag_coefficient) / p.mass * dt :=
      mul_pos (div_pos (mul_pos (mul_pos (mul_pos (by norm_num) hρ) hsq) hscd) hm) hdt
    have hlt : (p.update c dt).velocity < p.velocity := by
      rw [hv]; linarith
    refine ⟨hlt, ?_⟩
    rw [abs_of_neg hv0, abs_of_neg (by linarith : (p.update c dt).velocity < 0)]
    linarith

/-- C3 witness: the amended statement evaluated on a concrete forward
coast at 1 m/s on cfgT, deltaTime 1. -/
theorem C3_witness :
    (0 < pC3w.velocity → (pC3w.update cfgT 1).velocity < pC3w.velocity ∧
      (0.5 * AIR_DENSITY * (cfgT.front_area * cfgT.drag_coefficient) * pC3w.velocity * 1
          / pC3w.mass ≤ 1 →
        0 ≤ (pC3w.update cfgT 1).velocity)) ∧
    (pC3w.velocity < 0 → (pC3w.update cfgT 1).velocity < pC3w.velocity ∧
      |(pC3w.update cfgT 1).velocity| > |pC3w.velocity|) :=
  C3_amended pC3w cfgT 1 rfl (by norm_num [pC3w, cfgT, Player.initState])
    (by norm_num [cfgT]) (by norm_num)

/-! Claim C4. -/

/-- C4 counterexample: a tick of deltaTime 1 on a state shifting with 0.1 s
remaining leaves the shift timer at -0.9: the timer is not clamped to 0,
so shift_timer >= 0 does not hold after every tick. -/
theorem C4_counterexample :
    pC4.shift_time = 1/10 ∧ (pC4.update cfgT 1).shift_time = -(9/10) ∧
    ¬ 0 ≤ (pC4.update cfgT 1).shift_time := by
  have hst : (pC4.update cfgT 1).shift_time = -(9/10) := by
    rw [update_shift_time_of_shifting pC4 cfgT 1 (by norm_num [pC4, Player.initState])]
    norm_num [pC4, Player.initState]
  refine ⟨rfl, hst, ?_⟩
  rw [hst]
  norm_num

/-- C4 amended: while Shifting (shift_timer > 0) each tick decrements the
shift timer by deltaTime, and the state is back to Engaged (is_shifting
false) exactly when the decremented timer has reached or passed zero; the
timer is left at the decremented value, which may be negative — it is not
clamped to 0. -/
theorem C4_amended (p : Player) (c : Config) (dt : ℚ) (h : p.shift_time > 0) :
    (p.update c dt).shift_time = p.shift_time - dt ∧
    ((p.update c dt).is_shifting = true ↔ dt < p.shift_time) := by
  refine ⟨update_shift_time_of_shifting p c dt h, ?_⟩
  rw [is_shifting_iff, update_shift_time_of_shifting p c dt h]
  constructor
  · intro h2
    linarith
  · intro h2
    linarith

/-- C4 witness: the amended statement evaluated on a concrete shifting
state with 0.1 s remaining, deltaTime 1, on cfgT. -/
theorem C4_witness :
    (pC4.update cfgT 1).shift_time = pC4.shift_time - 1 ∧
    ((pC4.update cfgT 1).is_shifting = true ↔ (1:ℚ) < pC4.shift_time) :=
  C4_amended pC4 cfgT 1 (by norm_num [pC4, Player.initState])

/-! Claim C6. -/

/-- C6 counterexample: on a configuration with RPM band [800, 4000] the
freshly constructed vehicle has engine_RPM = 5000 (the hard-coded initial
constant), which lies outside [min_rpm, max_rpm]: the band invariant does
not hold at vehicle creation. -/
theorem C6_counterexample :
    pC6.engine_RPM = 5000 ∧ pC6.min_RPM = 800 ∧ pC6.max_RPM = 4000 ∧
    ¬ (pC6.min_RPM ≤ pC6.engine_RPM ∧ pC6.engine_RPM ≤ pC6.max_RPM) := by
  norm_num [pC6, cfgC6, cfgT, Player.initState]

/-- C6 amended: after every tick the engine RPM is clamped into
[min_RPM, max_RPM] (whenever min_RPM <= max_RPM); at creation the engine
RPM is the constant 5000 regardless of the band, so the invariant holds
from creation onward only when min_rpm <= 5000 <= max_rpm. -/
theorem C6_amended (p : Player) (c : Config) (dt : ℚ) (h : p.min_RPM ≤ p.max_RPM) :
    p.min_RPM ≤ (p.update c dt).engine_RPM ∧ (p.update c dt).engine_RPM ≤ p.max_RPM := by
  rw [update_engine_RPM]
  exact clamp_mem _ _ _ h

/-- C6 witness: the amended statement evaluated on the fresh vehicle of
cfgC6, deltaTime 1. -/
theorem C6_witness :
    pC6.min_RPM ≤ (pC6.update cfgC6 1).engine_RPM ∧
    (pC6.update cfgC6 1).engine_RPM ≤ pC6.max_RPM :=
  C6_amended pC6 cfgC6 1 (by norm_num [pC6, cfgC6, cfgT, Player.initState])

/-! Claim C5. -/

/-- C5: when Engaged (shift timer not positive) with engine_RPM >= max_RPM
and gear below the top index, the gear state machine sets the shift timer
to transmission_shift_time and raises the gear by one; and on every tick of
a Shifting state (shift_time > 0) with positive acceleration intent the
traction force delivered is exactly 0. -/
theorem C5_upshift_disengages (p : Player) (c : Config) (dt : ℚ)
    (hs : ¬ p.shift_time > 0) (hrpm : p.engine_RPM ≥ p.max_RPM)
    (hg : p.gear < (c.transmission.length : ℤ)) :
    (p.shift_gears c dt).shift_time = c.transmission_shift_time ∧
    (p.shift_gears c dt).gear = p.gear + 1 ∧
    ∀ q : Player, q.shift_time > 0 → q.acceleration > 0 → q.tractionForce c = 0 := by
  have hb : ¬ (p.is_shifting = true) := by
    rw [is_shifting_iff]
    exact hs
  unfold Player.shift_gears
  rw [if_neg hb, if_pos (And.intro hrpm hg)]
  refine ⟨rfl, rfl, ?_⟩
  intro q hq ha
  unfold Player.tractionForce
  rw [if_pos (And.intro ((is_shifting_iff q).mpr hq) ha)]

/-- C5 witness: on the fresh cfgT vehicle (Engaged, engine RPM 5000 =
max_rpm, gear 1 of top index 2), the upshift arms the 0.5 s shift timer,
and traction is zero for every shifting throttled state. -/
theorem C5_witness :
    (pC5.shift_gears cfgT 1).shift_time = cfgT.transmission_shift_time ∧
    (pC5.shift_gears cfgT 1).gear = pC5.gear + 1 ∧
    ∀ q : Player, q.shift_time > 0 → q.acceleration > 0 → q.tractionForce cfgT = 0 :=
  C5_upshift_disengages pC5 cfgT 1 (by norm_num [pC5, Player.initState])
    (by norm_num [pC5, cfgT, Player.initState]) (by norm_num [pC5, cfgT, Player.initState])

/-! Claim C7. -/

/-- C7: in the steering branch (steering intent nonzero), whenever
R = m * v^2 / (fs * m * g) does not exceed the wheelbase and the
max_turning_angle clamp cannot fire (max_turning_angle >= 90), the actualR
local variable is never assigned (modelled as none): the tick reads an
uninitialized variable, for any values of the library trig functions. -/
theorem C7_uninitialized_actualR (asinDeg sinDeg : ℚ → ℚ) (p : Player) (c : Config)
    (hsteer : p.steering ≠ 0)
    (hR : p.mass * p.velocity ^ 2 / (c.static_friction * p.mass * EARTH_ACCELERATION)
      ≤ c.wheelbase)
    (hmax : 90 ≤ c.max_turning_angle) :
    steeringActualR asinDeg sinDeg p c = none := by
  simp only [steeringActualR]
  rw [if_neg (not_lt.mpr hR)]
  dsimp only
  rw [if_neg (not_lt.mpr hmax)]

/-- C7 witness: the uninitialized read on the concrete slow steering state
pC7 over cfgC7 (max_turning_angle exactly 90), with both abstract trig
functions instantiated to the zero function. -/
theorem C7_witness :
    steeringActualR (fun _ => 0) (fun _ => 0) pC7 cfgC7 = none :=
  C7_uninitialized_actualR (fun _ => 0) (fun _ => 0) pC7 cfgC7
    (by norm_num [pC7, cfgC7, cfgT, Player.initState])
    (by norm_num [pC7, cfgC7, cfgT, Player.initState, EARTH_ACCELERATION])
    (by norm_num [cfgC7, cfgT])

/-! Claim C8. -/

/-- C8: vehicle construction fails exactly when the torque and power sample
arrays differ in length; on mismatch the result is the error whose message
starts with the vehicle's full name (no vehicle is produced), and on equal
lengths construction yields a vehicle. -/
theorem C8_construction_error (fit : List ℚ → List ℚ → ℚ → ℚ) (c : Config) :
    (c.torque_samples.length ≠ c.power_samples.length →
      Player.init fit c = Except.error
        (c.full_name ++ " has incosistent amount of torque and power samples")) ∧
    (c.torque_samples.length = c.power_samples.length →
      ∃ p : Player, Player.init fit c = Except.ok p) := by
  constructor
  · intro h
    unfold Player.init Player.interpolatePowerAndTorque
    rw [if_pos h]
  · intro h
    refine ⟨Player.initState c
      (interpolate_spline fit
        (List.map (fun i : ℕ => c.sampling_precision * (i : ℚ) + c.sampling_start)
          (List.range c.torque_samples.length))
        c.torque_samples (pyRangeQ 0 (c.max_rpm + 1)))
      (interpolate_spline fit
        (List.map (fun i : ℕ => c.sampling_precision * (i : ℚ) + c.sampling_start)
          (List.range c.torque_samples.length))
        c.power_samples (pyRangeQ 0 (c.max_rpm + 1))), ?_⟩
    unfold Player.init
    rw [Player.interp_ok fit c h]

/-- C8 witness: on cfgC8 (3 torque samples, 2 power samples) construction
fails with the message naming the vehicle; on cfgT (equal lengths)
construction succeeds. -/
theorem C8_witness :
    Player.init fit0 cfgC8 = Except.error
      (cfgC8.full_name ++ " has incosistent amount of torque and power samples") ∧
    ∃ p : Player, Player.init fit0 cfgT = Except.ok p :=
  ⟨(C8_construction_error fit0 cfgC8).1 (by norm_num [cfgC8, cfgT]),
   (C8_construction_error fit0 cfgT).2 rfl⟩

/-! Claim C9. -/

/-- C9: for every configuration with equal-length non-empty sample arrays
and positive sampling_precision (and any interpolant), the curve builder
succeeds and produces dense torque and power arrays of length exactly
max_rpm + 1. -/
theorem C9_curve_lengths (fit : List ℚ → List ℚ → ℚ → ℚ) (c : Config)
    (hlen : c.torque_samples.length = c.power_samples.length)
    (hne : c.torque_samples ≠ []) (hsp : 0 < c.sampling_precision) :
    ∃ tq pw : List ℚ, Player.interpolatePowerAndTorque fit c = Except.ok (tq, pw) ∧
      tq.length = c.max_rpm + 1 ∧ pw.length = c.max_rpm + 1 := by
  refine ⟨_, _, Player.interp_ok fit c hlen, ?_, ?_⟩
  · rw [interpolate_spline_length, pyRangeQ_length]
    omega
  · rw [interpolate_spline_length, pyRangeQ_length]
    omega

/-- C9 witness: the curve-length statement evaluated on cfgC10 (max_rpm 5,
three samples each) under the concrete interpolant fit0. -/
theorem C9_witness :
    ∃ tq pw : List ℚ, Player.interpolatePowerAndTorque fit0 cfgC10 = Except.ok (tq, pw) ∧
      tq.length = cfgC10.max_rpm + 1 ∧ pw.length = cfgC10.max_rpm + 1 :=
  C9_curve_lengths fit0 cfgC10 rfl (by simp [cfgC10, cfgT])
    (by norm_num [cfgC10, cfgT])

/-! Claim C10. -/

/-- C10: for curve tables built by the curve builder, the lookup index
int(rpm) of get_torque and get_power is in bounds for every rpm in
[min_rpm, max_rpm] when 0 <= min_rpm; and on the freshly constructed state
(hard-coded engine_RPM = 5000) the lookup is in bounds exactly when
max_rpm >= 5000. -/
theorem C10_lookup_bounds (fit : List ℚ → List ℚ → ℚ → ℚ) (c : Config) (tq pw : List ℚ)
    (h : Player.interpolatePowerAndTorque fit c = Except.ok (tq, pw))
    (hmin0 : 0 ≤ c.min_rpm) :
    (∀ rpm : ℚ, c.min_rpm ≤ rpm → rpm ≤ (c.max_rpm : ℚ) →
      curveIndexValid tq rpm ∧ curveIndexValid pw rpm) ∧
    (curveIndexValid tq (Player.initState c tq pw).engine_RPM ↔ 5000 ≤ c.max_rpm) := by
  obtain ⟨htq, hpw⟩ := Player.interp_ok_lengths fit c tq pw h
  have hvalid : ∀ (curve : List ℚ), curve.length = c.max_rpm + 1 →
      ∀ rpm : ℚ, c.min_rpm ≤ rpm → rpm ≤ (c.max_rpm : ℚ) → curveIndexValid curve rpm := by
    intro curve hcl rpm h1 h2
    have hr0 : (0:ℚ) ≤ rpm := le_trans hmin0 h1
    have hint : pyInt rpm = ⌊rpm⌋ := by
      unfold pyInt
      rw [if_neg (not_lt.mpr hr0)]
    have h0f : 0 ≤ ⌊rpm⌋ := Int.le_floor.mpr (by exact_mod_cast hr0)
    have hfl : ⌊rpm⌋ ≤ (c.max_rpm : ℤ) := by
      have h3 := Int.floor_le_floor h2
      rwa [Int.floor_natCast] at h3
    unfold curveIndexValid
    rw [hint, hcl]
    exact ⟨h0f, by omega⟩
  refine ⟨fun rpm h1 h2 => ⟨hvalid tq htq rpm h1 h2, hvalid pw hpw rpm h1 h2⟩, ?_⟩
  have h5 : pyInt (Player.initState c tq pw).engine_RPM = 5000 := by
    show pyInt 5000 = 5000
    unfold pyInt
    rw [if_neg (by norm_num)]
    norm_num
  unfold curveIndexValid
  rw [h5, htq]
  constructor
  · rintro ⟨hA, hB⟩
    omega
  · intro hm
    exact ⟨by norm_num, by omega⟩

/-- C10 witness: the lookup-bounds statement evaluated on cfgC10
(max_rpm = 5 < 5000: the first-tick lookup with the hard-coded RPM 5000 is
out of bounds there) with the concrete curves built by fit0. -/
theorem C10_witness :
    (∀ rpm : ℚ, cfgC10.min_rpm ≤ rpm → rpm ≤ (cfgC10.max_rpm : ℚ) →
      curveIndexValid tqC10 rpm ∧ curveIndexValid pwC10 rpm) ∧
    (curveIndexValid tqC10 (Player.initState cfgC10 tqC10 pwC10).engine_RPM ↔
      5000 ≤ cfgC10.max_rpm) :=
  C10_lookup_bounds fit0 cfgC10 tqC10 pwC10 (Player.interp_ok fit0 cfgC10 rfl)
    (by norm_num [cfgC10, cfgT])

end StreetRacer
